import Mathlib

/-!
Verification of the card-sorting robot control core
(`card_sorting_robot`: `modules/robot_arm.py`, `modules/ocr_recognition.py`,
`main.py`) against its natural-language specification.

Coordinates and confidences (Python floats) are embedded as rationals `ℚ`;
serial-channel effects are embedded as the explicit list of commands written
during a call; the external recognition engine is embedded as an oracle
giving the result of the i-th `recognize` invocation.
-/

namespace CardSorting

/-- The six scalar workspace bounds read from `safety_config['workspace_limits']`
in `RobotArm._check_workspace_limits`. -/
structure WorkspaceLimits where
  x_min : ℚ
  x_max : ℚ
  y_min : ℚ
  y_max : ℚ
  z_min : ℚ
  z_max : ℚ
deriving DecidableEq

/-- The default bounds used by `_check_workspace_limits` when the
configuration supplies none: `x∈[-300,300]`, `y∈[-200,200]`, `z∈[0,300]`. -/
def default_workspace_limits : WorkspaceLimits :=
  { x_min := -300, x_max := 300, y_min := -200, y_max := 200, z_min := 0, z_max := 300 }

/-- `RobotArm._check_workspace_limits(x, y, z)`: three chained range tests,
each `if not (lo <= v <= hi): return False`, then `return True`.  The
rotational components are not parameters of the source function. -/
def check_workspace_limits (l : WorkspaceLimits) (x y z : ℚ) : Bool :=
  if ¬(l.x_min ≤ x ∧ x ≤ l.x_max) then false
  else if ¬(l.y_min ≤ y ∧ y ≤ l.y_max) then false
  else if ¬(l.z_min ≤ z ∧ z ≤ l.z_max) then false
  else true

/-- The commands `RobotArm` formats into G-code strings and hands to
`send_command`: `G0 X.. Y.. Z.. A.. B.. C.. F..`, `M3 S..`, `M112`. -/
inductive ArmCommand where
  | moveTo (x y z rx ry rz speed : ℚ)
  | gripper (value : ℚ)
  | emergencyStop
deriving DecidableEq

/-- A configured pose, as looked up in the `positions` dictionary by
`RobotArm.move_to_position` (absent `rx`/`ry`/`rz` entries default to 0). -/
structure Pose where
  x : ℚ
  y : ℚ
  z : ℚ
  rx : ℚ
  ry : ℚ
  rz : ℚ
deriving DecidableEq

/-- The named positions of the `Position` enum in `robot_arm.py`. -/
inductive Position where
  | home
  | card_pile
  | scan
  | success
  | failed
deriving DecidableEq

/-- `Position.value`: the configuration key of each named position. -/
def Position.value : Position → String
  | .home => "home"
  | .card_pile => "card_pile"
  | .scan => "scan_position"
  | .success => "success_pile"
  | .failed => "failed_pile"

/-- The state a `RobotArm` instance closes over: configured limits, the
`positions` dictionary, motion parameters, connection flags, and an oracle
for whether a serial write succeeds. -/
structure ArmContext where
  limits : WorkspaceLimits
  positions : String → Option Pose
  speed : ℚ
  gripper_open_value : ℚ
  gripper_close_value : ℚ
  simulation_mode : Bool
  is_connected : Bool
  transport_ok : ArmCommand → Bool

/-- `RobotArm.send_command`: in simulation mode nothing is written and the
call succeeds; when disconnected it fails without writing; otherwise the
command is written to the serial channel and the transport decides success.
The second component is the list of commands written during the call. -/
def send_command (a : ArmContext) (cmd : ArmCommand) : Bool × List ArmCommand :=
  if a.simulation_mode = true then (true, [])
  else if a.is_connected = false then (false, [])
  else (a.transport_ok cmd, [cmd])

/-- `RobotArm.move_to_coordinates`: reject immediately when the workspace
check fails (nothing sent), else send the `G0` command; `wait` only adds a
settle sleep in the source and does not affect the result. -/
def move_to_coordinates (a : ArmContext) (x y z rx ry rz : ℚ) (wait : Bool) :
    Bool × List ArmCommand :=
  if check_workspace_limits a.limits x y z = false then (false, [])
  else send_command a (ArmCommand.moveTo x y z rx ry rz a.speed)

/-- `RobotArm.move_to_position`: look the label up in `positions`; a missing
entry fails without any command; otherwise move to the configured pose. -/
def move_to_position (a : ArmContext) (pos : Position) (wait : Bool) :
    Bool × List ArmCommand :=
  match a.positions pos.value with
  | none => (false, [])
  | some p => move_to_coordinates a p.x p.y p.z p.rx p.ry p.rz wait

/-- `RobotArm.open_gripper`: send `M3 S{gripper_open_value}`. -/
def open_gripper (a : ArmContext) : Bool × List ArmCommand :=
  send_command a (ArmCommand.gripper a.gripper_open_value)

/-- `RobotArm.close_gripper`: send `M3 S{gripper_close_value}`. -/
def close_gripper (a : ArmContext) : Bool × List ArmCommand :=
  send_command a (ArmCommand.gripper a.gripper_close_value)

/-- `RobotArm.pick_card`: move to the card pile, open the gripper, close the
gripper; stop at the first failing step.  The list collects every command
written during the call. -/
def pick_card (a : ArmContext) : Bool × List ArmCommand :=
  let m := move_to_position a Position.card_pile true
  if m.1 = false then (false, m.2)
  else
    let o := open_gripper a
    if o.1 = false then (false, m.2 ++ o.2)
    else
      let c := close_gripper a
      if c.1 = false then (false, m.2 ++ o.2 ++ c.2)
      else (true, m.2 ++ o.2 ++ c.2)

/-- `RobotArm.place_card(success)`: move to the success pile or the failed
pile according to the flag, then open the gripper to release. -/
def place_card (a : ArmContext) (success : Bool) : Bool × List ArmCommand :=
  let pos := if success = true then Position.success else Position.failed
  let m := move_to_position a pos true
  if m.1 = false then (false, m.2)
  else
    let o := open_gripper a
    if o.1 = false then (false, m.2 ++ o.2)
    else (true, m.2 ++ o.2)

/-- `RobotArm.move_to_scan_position`. -/
def move_to_scan_position (a : ArmContext) : Bool × List ArmCommand :=
  move_to_position a Position.scan true

/-- `RobotArm.home`. -/
def arm_home (a : ArmContext) : Bool × List ArmCommand :=
  move_to_position a Position.home true

/-- Helper: the workspace check succeeds exactly when all three
translational coordinates are inside their inclusive ranges. -/
lemma check_workspace_limits_iff (l : WorkspaceLimits) (x y z : ℚ) :
    check_workspace_limits l x y z = true ↔
      (l.x_min ≤ x ∧ x ≤ l.x_max) ∧ (l.y_min ≤ y ∧ y ≤ l.y_max) ∧
        (l.z_min ≤ z ∧ z ≤ l.z_max) := by
  unfold check_workspace_limits
  split_ifs with h1 h2 h3 <;> simp_all

/-- C1: a pose with any translational coordinate outside the configured
workspace limits makes `move_to_coordinates` return failure, and
`send_command` is never invoked — no command is written to the serial
channel. -/
theorem move_out_of_bounds_never_sends (a : ArmContext) (x y z rx ry rz : ℚ)
    (wait : Bool)
    (h : x < a.limits.x_min ∨ a.limits.x_max < x ∨ y < a.limits.y_min ∨
      a.limits.y_max < y ∨ z < a.limits.z_min ∨ a.limits.z_max < z) :
    move_to_coordinates a x y z rx ry rz wait = (false, []) := by
  have hc : check_workspace_limits a.limits x y z = false := by
    rw [← Bool.not_eq_true, check_workspace_limits_iff]
    intro hall
    rcases h with h | h | h | h | h | h <;>
      linarith [hall.1.1, hall.1.2, hall.2.1.1, hall.2.1.2, hall.2.2.1,
        hall.2.2.2]
  unfold move_to_coordinates
  rw [hc]
  simp

/-- Witness for C1 at the spec's own example `(301, 0, 50)` under the
default limits. -/
theorem move_out_of_bounds_never_sends_witness :
    move_to_coordinates
      { limits := default_workspace_limits, positions := fun _ => none,
        speed := 50, gripper_open_value := 100, gripper_close_value := 0,
        simulation_mode := true, is_connected := true,
        transport_ok := fun _ => true }
      301 0 50 0 0 0 true = (false, []) :=
  move_out_of_bounds_never_sends _ 301 0 50 0 0 0 true
    (Or.inr (Or.inl (by norm_num [default_workspace_limits])))

/-- C2: `_check_workspace_limits` accepts iff each of x, y, z lies within
its configured inclusive range (the rotational components are not inputs of
the check at all), and at the default limits the pose `(301,0,50)` is
rejected while `(300,0,50)` is accepted. -/
theorem check_workspace_limits_spec :
    (∀ (l : WorkspaceLimits) (x y z : ℚ),
      check_workspace_limits l x y z = true ↔
        (l.x_min ≤ x ∧ x ≤ l.x_max) ∧ (l.y_min ≤ y ∧ y ≤ l.y_max) ∧
          (l.z_min ≤ z ∧ z ≤ l.z_max)) ∧
    check_workspace_limits default_workspace_limits 301 0 50 = false ∧
    check_workspace_limits default_workspace_limits 300 0 50 = true := by
  refine ⟨check_workspace_limits_iff, ?_, ?_⟩ <;> decide

/-- The configuration of `OCRRecognizer`: the confidence threshold, the
card-number pattern (embedded as a predicate on strings) and `max_retry`. -/
structure OCRConfig where
  confidence_threshold : ℚ
  card_number_pattern_ok : String → Bool
  max_retry : ℕ

/-- One character of the default pattern class `[A-Z0-9-]`. -/
def card_char_ok (c : Char) : Bool :=
  (decide ('A' ≤ c) && decide (c ≤ 'Z')) ||
    (decide ('0' ≤ c) && decide (c ≤ '9')) || decide (c = '-')

/-- The default configured pattern `^[A-Z0-9-]{5,15}$`: 5 to 15 characters,
all from the class. -/
def default_card_number_pattern_ok (s : String) : Bool :=
  decide (5 ≤ s.length) && decide (s.length ≤ 15) && s.toList.all card_char_ok

/-- The default `OCRRecognizer` configuration (threshold 0.6, 3 retries). -/
def default_ocr_config : OCRConfig :=
  { confidence_threshold := mkRat 6 10,
    card_number_pattern_ok := default_card_number_pattern_ok,
    max_retry := 3 }

/-- `OCRRecognizer.validate_card_number`: `None` and the empty string are
rejected (`if not text`), otherwise the pattern decides. -/
def validate_card_number (cfg : OCRConfig) (text : Option String) : Bool :=
  match text with
  | none => false
  | some s => if s = "" then false else cfg.card_number_pattern_ok s

/-- The value returned by `recognize_card_number`, instrumented with the
number of `recognize` invocations the call performed. -/
structure RecogResult where
  text : Option String
  confidence : ℚ
  accepted : Bool
  calls : ℕ
deriving DecidableEq

/-- The body of the `for attempt in range(attempts)` loop of
`OCRRecognizer.recognize_card_number`.  `results i` is the value of the
i-th `recognize(image)` call; `fuel` is the number of loop iterations left
(`attempts - i`); the base case is the after-loop `return None, 0.0, False`,
reachable only when the range is empty. -/
def recognize_loop (cfg : OCRConfig) (results : ℕ → Option String × ℚ)
    (attempts : ℕ) : ℕ → ℕ → RecogResult
  | 0, i => ⟨none, 0, false, i⟩
  | fuel + 1, i =>
    let text := (results i).1
    let confidence := (results i).2
    if confidence < cfg.confidence_threshold then
      if i < attempts - 1 then recognize_loop cfg results attempts fuel (i + 1)
      else ⟨text, confidence, false, i + 1⟩
    else if validate_card_number cfg text = false then
      if i < attempts - 1 then recognize_loop cfg results attempts fuel (i + 1)
      else ⟨text, confidence, false, i + 1⟩
    else ⟨text, confidence, true, i + 1⟩

/-- `OCRRecognizer.recognize_card_number(image, retry)`:
`attempts = max_retry if retry else 1`, then the retry loop. -/
def recognize_card_number (cfg : OCRConfig) (results : ℕ → Option String × ℚ)
    (retry : Bool) : RecogResult :=
  let attempts := if retry = true then cfg.max_retry else 1
  recognize_loop cfg results attempts attempts 0

/-- An attempt result that fails the confidence check or the format check. -/
def attempt_fails (cfg : OCRConfig) (r : Option String × ℚ) : Prop :=
  r.2 < cfg.confidence_threshold ∨ validate_card_number cfg r.1 = false

/-- An attempt result that passes both the confidence and format checks. -/
def attempt_passes (cfg : OCRConfig) (r : Option String × ℚ) : Prop :=
  cfg.confidence_threshold ≤ r.2 ∧ validate_card_number cfg r.1 = true

/-- Helper: when every remaining attempt fails one of the checks, the loop
ends at index `attempts - 1` and returns that last attempt's evidence. -/
lemma recognize_loop_all_fail (cfg : OCRConfig)
    (results : ℕ → Option String × ℚ) (attempts : ℕ) :
    ∀ fuel i, fuel = attempts - i → i < attempts →
      (∀ j, i ≤ j → j < attempts → attempt_fails cfg (results j)) →
      recognize_loop cfg results attempts fuel i =
        ⟨(results (attempts - 1)).1, (results (attempts - 1)).2, false,
          attempts⟩ := by
  intro fuel
  induction fuel with
  | zero => intro i hfuel hi _; omega
  | succ n ih =>
    intro i hfuel hi hfail
    have hfi := hfail i (le_refl i) hi
    by_cases hlast : i < attempts - 1
    · have hstep := ih (i + 1) (by omega) (by omega)
        (fun j hj hj2 => hfail j (by omega) hj2)
      simp only [recognize_loop]
      by_cases hc : (results i).2 < cfg.confidence_threshold
      · rw [if_pos hc, if_pos hlast, hstep]
      · have hv : validate_card_number cfg (results i).1 = false := by
          rcases hfi with hc2 | hv2
          · exact absurd hc2 hc
          · exact hv2
        rw [if_neg hc, if_pos hv, if_pos hlast, hstep]
    · have hieq : i = attempts - 1 := by omega
      subst hieq
      have hi1 : attempts - 1 + 1 = attempts := by omega
      simp only [recognize_loop]
      by_cases hc : (results (attempts - 1)).2 < cfg.confidence_threshold
      · rw [if_pos hc, if_neg hlast, hi1]
      · have hv : validate_card_number cfg (results (attempts - 1)).1 = false := by
          rcases hfi with hc2 | hv2
          · exact absurd hc2 hc
          · exact hv2
        rw [if_neg hc, if_pos hv, if_neg hlast, hi1]


/-- Helper: when attempts `i..k-2` fail and attempt `k-1` passes both
checks, the loop stops at attempt `k-1` and accepts, having performed `k`
recognize calls in total. -/
lemma recognize_loop_first_pass (cfg : OCRConfig)
    (results : ℕ → Option String × ℚ) (attempts k : ℕ) (hk1 : 1 ≤ k)
    (hk : k ≤ attempts)
    (hfail : ∀ j, j < k - 1 → attempt_fails cfg (results j))
    (hpass : attempt_passes cfg (results (k - 1))) :
    ∀ fuel i, fuel = attempts - i → i ≤ k - 1 →
      recognize_loop cfg results attempts fuel i =
        ⟨(results (k - 1)).1, (results (k - 1)).2, true, k⟩ := by
  intro fuel
  induction fuel with
  | zero => intro i hfuel hi; omega
  | succ n ih =>
    intro i hfuel hi
    by_cases hip : i = k - 1
    · subst hip
      have hnc : ¬ (results (k - 1)).2 < cfg.confidence_threshold :=
        not_lt.mpr hpass.1
      have hvne : ¬ validate_card_number cfg (results (k - 1)).1 = false := by
        simp [hpass.2]
      have hi1 : k - 1 + 1 = k := by omega
      simp only [recognize_loop]
      rw [if_neg hnc, if_neg hvne, hi1]
    · have hilt : i < k - 1 := by omega
      have hstep := ih (i + 1) (by omega) (by omega)
      have hcont : i < attempts - 1 := by omega
      simp only [recognize_loop]
      by_cases hc : (results i).2 < cfg.confidence_threshold
      · rw [if_pos hc, if_pos hcont, hstep]
      · have hv : validate_card_number cfg (results i).1 = false := by
          rcases hfail i hilt with hc2 | hv2
          · exact absurd hc2 hc
          · exact hv2
        rw [if_neg hc, if_pos hv, if_pos hcont, hstep]

/-- C4: with retry enabled and `max_retry ≥ 1`, if every one of the
`max_retry` attempts fails the confidence or format check, the gate returns
the LAST attempt's text and confidence with `accepted = false` (and has
performed all `max_retry` recognize calls). -/
theorem recognize_all_attempts_fail_returns_last (cfg : OCRConfig)
    (results : ℕ → Option String × ℚ) (h1 : 1 ≤ cfg.max_retry)
    (hfail : ∀ i, i < cfg.max_retry → attempt_fails cfg (results i)) :
    recognize_card_number cfg results true =
      ⟨(results (cfg.max_retry - 1)).1, (results (cfg.max_retry - 1)).2,
        false, cfg.max_retry⟩ := by
  unfold recognize_card_number
  simp only [if_pos rfl]
  exact recognize_loop_all_fail cfg results cfg.max_retry cfg.max_retry 0
    (by omega) (by omega) (fun j _ hj2 => hfail j hj2)

/-- Witness for C4: threshold 0.6, three attempts all below threshold; the
gate returns the third attempt's evidence, rejected. -/
theorem recognize_all_attempts_fail_returns_last_witness :
    recognize_card_number default_ocr_config
      (fun i => (some (String.append "BAD-" (toString i)), mkRat 1 2)) true =
      ⟨some "BAD-2", mkRat 1 2, false, 3⟩ :=
  recognize_all_attempts_fail_returns_last default_ocr_config
    (fun i => (some (String.append "BAD-" (toString i)), mkRat 1 2))
    (by decide)
    (fun i _ => Or.inl (by
      change mkRat 1 2 < default_ocr_config.confidence_threshold
      decide))

/-- C5: if the first `k - 1` attempts fail a check and the `k`-th passes
both (`1 ≤ k ≤ max_retry`, retry enabled), the gate returns the `k`-th
attempt's text and confidence with `accepted = true` after exactly `k`
recognize calls; and with retry disabled it always performs exactly one
recognize call. -/
theorem recognize_accepts_first_passing (cfg : OCRConfig)
    (results : ℕ → Option String × ℚ) (k : ℕ) (hk1 : 1 ≤ k)
    (hk : k ≤ cfg.max_retry)
    (hfail : ∀ j, j < k - 1 → attempt_fails cfg (results j))
    (hpass : attempt_passes cfg (results (k - 1))) :
    recognize_card_number cfg results true =
      ⟨(results (k - 1)).1, (results (k - 1)).2, true, k⟩ ∧
    ∀ (cfg2 : OCRConfig) (results2 : ℕ → Option String × ℚ),
      (recognize_card_number cfg2 results2 false).calls = 1 := by
  constructor
  · unfold recognize_card_number
    simp only [if_pos rfl]
    exact recognize_loop_first_pass cfg results cfg.max_retry k hk1 hk hfail
      hpass cfg.max_retry 0 (by omega) (by omega)
  · intro cfg2 results2
    show (recognize_loop cfg2 results2 1 1 0).calls = 1
    simp only [recognize_loop]
    split_ifs <;> rfl

/-- Witness for C5: the first two attempts are below threshold, the third
passes both checks; the gate accepts the third attempt after 3 calls. -/
theorem recognize_accepts_first_passing_witness :
    recognize_card_number default_ocr_config
      (fun i => if i < 2 then (none, 0) else (some "ABC-123", mkRat 3 4))
      true = ⟨some "ABC-123", mkRat 3 4, true, 3⟩ :=
  (recognize_accepts_first_passing default_ocr_config
    (fun i => if i < 2 then (none, 0) else (some "ABC-123", mkRat 3 4)) 3
    (by decide) (by decide)
    (fun j hj => by interval_cases j <;> exact Or.inl (by decide))
    (by unfold attempt_passes; exact ⟨by decide, by decide⟩)).1

/-- C10: with `max_retry = 0` and retry enabled, the range is empty: no
recognize call is ever performed and the empty fallback
`(None, 0.0, False)` is returned. -/
theorem recognize_zero_retry_no_attempts (cfg : OCRConfig)
    (results : ℕ → Option String × ℚ) (h : cfg.max_retry = 0) :
    recognize_card_number cfg results true = ⟨none, 0, false, 0⟩ := by
  unfold recognize_card_number
  simp only [if_pos rfl, h]
  rfl

/-- Witness for C10 at a concrete configuration and oracle. -/
theorem recognize_zero_retry_no_attempts_witness :
    recognize_card_number
      { confidence_threshold := mkRat 6 10,
        card_number_pattern_ok := default_card_number_pattern_ok,
        max_retry := 0 }
      (fun _ => (some "ABC-123", 1)) true = ⟨none, 0, false, 0⟩ :=
  recognize_zero_retry_no_attempts _ _ rfl

/-- One record written by `database.insert_card` during a cycle: the
recognized number, its confidence, and the `status` string
(`'success'`/`'failed'`) derived from the recognition outcome. -/
structure CardRecord where
  card_number : Option String
  confidence : ℚ
  status_success : Bool
deriving DecidableEq

/-- The mutable counters and persisted records owned by `CardSortingRobot`:
`total_processed`, `success_count`, `failed_count`, and the database
contents. -/
structure RobotState where
  total_processed : ℕ
  success_count : ℕ
  failed_count : ℕ
  records : List CardRecord
deriving DecidableEq

/-- The per-cycle environment of `CardSortingRobot.process_single_card`:
the outcome of each physical step (`robot.pick_card`,
`robot.move_to_scan_position`, `robot.place_card` for either bin,
`robot.home`), whether `camera.capture_multiple_frames` returned a frame,
and the recognizer configuration and oracle for this cycle's image. -/
structure CycleEnv where
  pick_ok : Bool
  scan_ok : Bool
  capture_ok : Bool
  ocr_cfg : OCRConfig
  ocr_results : ℕ → Option String × ℚ
  place_accept_ok : Bool
  place_reject_ok : Bool
  home_ok : Bool

/-- `CardSortingRobot.process_single_card`: pick, move to scan, capture,
recognize, update the success/failed counter, insert the database record,
place into the bin selected by the recognition outcome, home, and only then
increment `total_processed`.  Any failing step returns `False` with the
state as it is at that point. -/
def process_single_card (env : CycleEnv) (s : RobotState) : Bool × RobotState :=
  if env.pick_ok = false then (false, s)
  else if env.scan_ok = false then (false, s)
  else if env.capture_ok = false then (false, s)
  else
    let r := recognize_card_number env.ocr_cfg env.ocr_results true
    let s1 :=
      if r.accepted = true then { s with success_count := s.success_count + 1 }
      else { s with failed_count := s.failed_count + 1 }
    let s2 := { s1 with records := s1.records ++ [⟨r.text, r.confidence, r.accepted⟩] }
    let placed := if r.accepted = true then env.place_accept_ok else env.place_reject_ok
    if placed = false then (false, s2)
    else if env.home_ok = false then (false, s2)
    else (true, { s2 with total_processed := s2.total_processed + 1 })

/-- C3: when every physical step of the cycle succeeds — pick, move to
scan, image capture, place (into whichever bin the recognition outcome
selects), home — `process_single_card` reports success, whatever the
recognition gate returned; a recognition reject only routes the card and is
never a cycle failure. -/
theorem process_single_card_physical_success (env : CycleEnv) (s : RobotState)
    (h1 : env.pick_ok = true) (h2 : env.scan_ok = true)
    (h3 : env.capture_ok = true) (h4 : env.place_accept_ok = true)
    (h5 : env.place_reject_ok = true) (h6 : env.home_ok = true) :
    (process_single_card env s).1 = true := by
  unfold process_single_card
  rcases hacc : (recognize_card_number env.ocr_cfg env.ocr_results true).accepted with _ | _ <;>
    simp [h1, h2, h3, h4, h5, h6, hacc]

/-- Witness for C3 with a rejecting recognition (all attempts fail): the
cycle still succeeds. -/
theorem process_single_card_physical_success_witness :
    (process_single_card
      { pick_ok := true, scan_ok := true, capture_ok := true,
        ocr_cfg := default_ocr_config, ocr_results := fun _ => (none, 0),
        place_accept_ok := true, place_reject_ok := true, home_ok := true }
      ⟨0, 0, 0, []⟩).1 = true :=
  process_single_card_physical_success _ _ rfl rfl rfl rfl rfl rfl

/-- The run-policy fields of `CardSortingRobot` read from `main_process`
configuration: `max_cards` (0 = unbounded), `stop_on_error`, `auto_resume`. -/
structure RunPolicy where
  max_cards : ℕ
  stop_on_error : Bool
  auto_resume : Bool
deriving DecidableEq

/-- The observable actions of the `CardSortingRobot.run` while-loop: a
cycle attempt with its outcome, the `time.sleep(2)` cooldown of the
auto-resume branch, and the blocking `input(...)` wait of the manual
branch. -/
inductive RunAction where
  | cycle (idx : ℕ) (success : Bool)
  | sleepCooldown
  | awaitOperator
deriving DecidableEq

/-- The `while True` loop of `CardSortingRobot.run`.  `outcomes i` is the
result of the i-th `process_single_card` call; `total` mirrors
`total_processed`, which that call increments on success; `fuel` bounds how
many iterations are observed (the source loop may be unbounded).  Returns
the trace of actions and the final `total_processed`. -/
def run_loop (cfg : RunPolicy) (outcomes : ℕ → Bool) :
    ℕ → ℕ → ℕ → List RunAction × ℕ
  | 0, _, total => ([], total)
  | fuel + 1, idx, total =>
    if 0 < cfg.max_cards ∧ cfg.max_cards ≤ total then ([], total)
    else if outcomes idx = true then
      let r := run_loop cfg outcomes fuel (idx + 1) (total + 1)
      (RunAction.cycle idx true :: r.1, r.2)
    else if cfg.stop_on_error = true then ([RunAction.cycle idx false], total)
    else if cfg.auto_resume = true then
      let r := run_loop cfg outcomes fuel (idx + 1) total
      (RunAction.cycle idx false :: RunAction.sleepCooldown :: r.1, r.2)
    else
      let r := run_loop cfg outcomes fuel (idx + 1) total
      (RunAction.cycle idx false :: RunAction.awaitOperator :: r.1, r.2)

/-- C6: after a failed cycle the resilience policy is applied in priority
order — `stop_on_error` terminates the loop immediately with no further
action; otherwise `auto_resume` sleeps the fixed cooldown and continues the
loop; otherwise the loop blocks awaiting operator input before the next
cycle. -/
theorem run_failure_policy (cfg : RunPolicy) (outcomes : ℕ → Bool)
    (fuel idx total : ℕ)
    (hguard : ¬ (0 < cfg.max_cards ∧ cfg.max_cards ≤ total))
    (hfail : outcomes idx = false) :
    (cfg.stop_on_error = true →
      run_loop cfg outcomes (fuel + 1) idx total =
        ([RunAction.cycle idx false], total)) ∧
    (cfg.stop_on_error = false → cfg.auto_resume = true →
      run_loop cfg outcomes (fuel + 1) idx total =
        (RunAction.cycle idx false :: RunAction.sleepCooldown ::
          (run_loop cfg outcomes fuel (idx + 1) total).1,
          (run_loop cfg outcomes fuel (idx + 1) total).2)) ∧
    (cfg.stop_on_error = false → cfg.auto_resume = false →
      run_loop cfg outcomes (fuel + 1) idx total =
        (RunAction.cycle idx false :: RunAction.awaitOperator ::
          (run_loop cfg outcomes fuel (idx + 1) total).1,
          (run_loop cfg outcomes fuel (idx + 1) total).2)) := by
  refine ⟨fun hstop => ?_, fun hstop hauto => ?_, fun hstop hauto => ?_⟩
  · simp [run_loop, hguard, hfail, hstop]
  · simp [run_loop, hguard, hfail, hstop, hauto]
  · simp [run_loop, hguard, hfail, hstop, hauto]

/-- Witness for C6: with `stop_on_error` the loop ends at the first failed
cycle. -/
theorem run_failure_policy_witness :
    run_loop ⟨0, true, true⟩ (fun _ => false) 1 0 0 =
      ([RunAction.cycle 0 false], 0) :=
  (run_failure_policy ⟨0, true, true⟩ (fun _ => false) 0 0 0 (by decide)
    rfl).1 rfl

/-- `CardSortingRobot.initialize_hardware`: open the camera, connect the
arm, home the arm; the first failure aborts initialization. -/
def initialize_hardware (camera_ok connect_ok : Bool) (a : ArmContext) : Bool :=
  if camera_ok = false then false
  else if connect_ok = false then false
  else if (arm_home a).1 = false then false
  else true

/-- The four release steps of `CardSortingRobot.cleanup`: final statistics
(only when any cycle was processed), `camera.close()`, `robot.disconnect()`,
`database.close()`. -/
inductive CleanupStep where
  | stats
  | cameraClose
  | robotDisconnect
  | dbClose
deriving DecidableEq

/-- Which cleanup steps raise when executed (collaborator failures). -/
structure CleanupEnv where
  stats_raises : Bool
  camera_close_raises : Bool
  robot_disconnect_raises : Bool
  db_close_raises : Bool
deriving DecidableEq

/-- `CardSortingRobot.cleanup`: the steps run sequentially with no
per-step exception handling, so a raising step ends the sequence and the
exception escapes.  Returns the steps that were executed (the raising step
included) and whether an exception escaped. -/
def cleanup (total_processed : ℕ) (env : CleanupEnv) :
    List CleanupStep × Bool :=
  let statsRun : List CleanupStep :=
    if 0 < total_processed then [CleanupStep.stats] else []
  if 0 < total_processed ∧ env.stats_raises = true then (statsRun, true)
  else if env.camera_close_raises = true then
    (statsRun ++ [CleanupStep.cameraClose], true)
  else if env.robot_disconnect_raises = true then
    (statsRun ++ [CleanupStep.cameraClose, CleanupStep.robotDisconnect], true)
  else if env.db_close_raises = true then
    (statsRun ++ [CleanupStep.cameraClose, CleanupStep.robotDisconnect,
      CleanupStep.dbClose], true)
  else
    (statsRun ++ [CleanupStep.cameraClose, CleanupStep.robotDisconnect,
      CleanupStep.dbClose], false)

/-- `CardSortingRobot.run`: when `initialize_hardware` fails the method
returns before its `try/finally`, so no cycle runs and `cleanup` is never
invoked; otherwise the loop runs and `cleanup` executes in the `finally`
on every exit (normal break or `KeyboardInterrupt`). -/
def run_trace (cfg : RunPolicy) (init_ok : Bool) (outcomes : ℕ → Bool)
    (fuel : ℕ) (cenv : CleanupEnv) : List RunAction × List CleanupStep :=
  if init_ok = false then ([], [])
  else
    let r := run_loop cfg outcomes fuel 0 0
    (r.1, (cleanup r.2 cenv).1)

/-- A cycle whose physical prelims succeed, whose recognition accepts, and
whose place step then fails. -/
def place_fail_env : CycleEnv :=
  { pick_ok := true, scan_ok := true, capture_ok := true,
    ocr_cfg := default_ocr_config,
    ocr_results := fun _ => (some "ABC-123", mkRat 3 4),
    place_accept_ok := false, place_reject_ok := true, home_ok := true }

/-- C7 counterexample: a cycle that fails at the place step has already
incremented the recognition counter and persisted the outcome record, so a
failed cycle does NOT leave the counters and storage unchanged (only
`total_processed` stays). -/
theorem process_failure_keeps_partial_state_cex :
    (process_single_card place_fail_env ⟨0, 0, 0, []⟩).1 = false ∧
    (process_single_card place_fail_env ⟨0, 0, 0, []⟩).2 =
      ⟨0, 1, 0, [⟨some "ABC-123", mkRat 3 4, true⟩]⟩ := by
  decide

/-- C7 amended: a failed cycle never increments `total_processed`; and a
cycle failing before the recognition step (pick, scan move, capture) leaves
the whole state unchanged.  (A failure at the place or home step keeps the
counter update and the record persisted earlier in the cycle.) -/
theorem process_failure_counters_amended (env : CycleEnv) (s : RobotState)
    (h : (process_single_card env s).1 = false) :
    (process_single_card env s).2.total_processed = s.total_processed ∧
    ((env.pick_ok = false ∨ env.scan_ok = false ∨ env.capture_ok = false) →
      (process_single_card env s).2 = s) := by
  simp only [process_single_card] at h ⊢
  split_ifs at h ⊢ <;> simp_all

/-- A cycle environment whose pick step fails. -/
def pick_fail_env : CycleEnv :=
  { pick_ok := false, scan_ok := true, capture_ok := true,
    ocr_cfg := default_ocr_config, ocr_results := fun _ => (none, 0),
    place_accept_ok := true, place_reject_ok := true, home_ok := true }

/-- Witness for the amended C7 at a pick failure. -/
theorem process_failure_counters_amended_witness :
    (process_single_card pick_fail_env ⟨0, 0, 0, []⟩).2.total_processed =
      (⟨0, 0, 0, []⟩ : RobotState).total_processed ∧
    ((pick_fail_env.pick_ok = false ∨ pick_fail_env.scan_ok = false ∨
        pick_fail_env.capture_ok = false) →
      (process_single_card pick_fail_env ⟨0, 0, 0, []⟩).2 = ⟨0, 0, 0, []⟩) :=
  process_failure_counters_amended pick_fail_env ⟨0, 0, 0, []⟩ (by decide)

/-- The positions dictionary of the module's own simulation test, with the
`card_pile` entry removed. -/
def positions_missing_card_pile : String → Option Pose := fun name =>
  if name = "home" then some ⟨0, 150, 200, 0, 0, 0⟩
  else if name = "scan_position" then some ⟨0, -150, 80, 0, 0, 0⟩
  else if name = "success_pile" then some ⟨-200, 0, 50, 0, 0, 0⟩
  else if name = "failed_pile" then some ⟨-200, 100, 50, 0, 0, 0⟩
  else none

/-- An arm configured without a `card_pile` position. -/
def arm_missing_card_pile : ArmContext :=
  { limits := default_workspace_limits,
    positions := positions_missing_card_pile, speed := 50,
    gripper_open_value := 100, gripper_close_value := 0,
    simulation_mode := true, is_connected := true,
    transport_ok := fun _ => true }

/-- The cycle environment induced by a concrete arm: each physical step's
outcome is the corresponding `RobotArm` call's result. -/
def cycle_env_of_arm (a : ArmContext) (capture_ok : Bool) (cfg : OCRConfig)
    (results : ℕ → Option String × ℚ) : CycleEnv :=
  { pick_ok := (pick_card a).1, scan_ok := (move_to_scan_position a).1,
    capture_ok := capture_ok, ocr_cfg := cfg, ocr_results := results,
    place_accept_ok := (place_card a true).1,
    place_reject_ok := (place_card a false).1,
    home_ok := (arm_home a).1 }

/-- C8 counterexample: with `card_pile` unresolvable, the pick fails, and
under `auto_resume` the run loop sleeps and RETRIES — a second cycle starts;
the missing named position is an ordinary retried cycle failure, not a
fatal fail-fast configuration error stopping the run loop. -/
theorem missing_position_retried_cex :
    pick_card arm_missing_card_pile = (false, []) ∧
    (run_loop ⟨0, false, true⟩
      (fun _ => (process_single_card
        (cycle_env_of_arm arm_missing_card_pile true default_ocr_config
          (fun _ => (none, 0))) ⟨0, 0, 0, []⟩).1) 2 0 0).1 =
      [RunAction.cycle 0 false, RunAction.sleepCooldown,
        RunAction.cycle 1 false, RunAction.sleepCooldown] := by
  decide

/-- C8 amended: an unresolvable named position makes the move fail with no
command sent, and the cycle failure is handled by the run-level resilience
policy like any other cycle failure; only the HOME position being missing
prevents the run loop from starting, because homing during hardware
initialization fails (no cycle runs, no cleanup runs). -/
theorem missing_position_fails_move_amended (a : ArmContext) (pos : Position)
    (cam con : Bool) (cfg : RunPolicy) (outcomes : ℕ → Bool) (fuel : ℕ)
    (cenv : CleanupEnv) (h : a.positions pos.value = none) :
    move_to_position a pos true = (false, []) ∧
    (pos = Position.home →
      run_trace cfg (initialize_hardware cam con a) outcomes fuel cenv =
        ([], [])) := by
  constructor
  · simp only [move_to_position, h]
  · intro hpos
    subst hpos
    have hh : (arm_home a).1 = false := by
      simp only [arm_home, move_to_position, h]
    have hinit : initialize_hardware cam con a = false := by
      unfold initialize_hardware
      cases cam <;> cases con <;> simp [hh]
    rw [hinit]
    unfold run_trace
    simp

/-- An arm with an empty positions dictionary. -/
def arm_no_positions : ArmContext :=
  { limits := default_workspace_limits, positions := fun _ => none,
    speed := 50, gripper_open_value := 100, gripper_close_value := 0,
    simulation_mode := true, is_connected := true,
    transport_ok := fun _ => true }

/-- Witness for the amended C8 at the missing home position. -/
theorem missing_position_fails_move_amended_witness :
    move_to_position arm_no_positions Position.home true = (false, []) ∧
    (Position.home = Position.home →
      run_trace ⟨0, false, true⟩ (initialize_hardware true true arm_no_positions)
        (fun _ => true) 1 ⟨false, false, false, false⟩ = ([], [])) :=
  missing_position_fails_move_amended arm_no_positions Position.home true true
    ⟨0, false, true⟩ (fun _ => true) 1 ⟨false, false, false, false⟩ rfl

/-- C9 counterexample: a raising `camera.close()` stops the shutdown
sequence — the actuator disconnect and storage close never run; and on the
hardware-initialization-failure path the shutdown sequence does not run at
all. -/
theorem cleanup_not_isolated_cex :
    cleanup 5 ⟨false, true, false, false⟩ =
      ([CleanupStep.stats, CleanupStep.cameraClose], true) ∧
    run_trace ⟨0, false, true⟩ false (fun _ => true) 3
      ⟨false, false, false, false⟩ = ([], []) := by
  decide

/-- C9 amended: the shutdown steps run sequentially with no per-step
isolation — when no step raises, all four release steps execute in order;
and whenever hardware initialization succeeded, `run` executes the cleanup
sequence exactly once in its `finally`, on normal exit and on operator
interrupt alike (a raising step prevents the remaining steps, and a failed
initialization skips cleanup entirely). -/
theorem cleanup_sequence_amended (total : ℕ) (cenv : CleanupEnv)
    (h1 : cenv.stats_raises = false) (h2 : cenv.camera_close_raises = false)
    (h3 : cenv.robot_disconnect_raises = false)
    (h4 : cenv.db_close_raises = false) (h5 : 0 < total) :
    cleanup total cenv =
      ([CleanupStep.stats, CleanupStep.cameraClose,
        CleanupStep.robotDisconnect, CleanupStep.dbClose], false) ∧
    ∀ (cfg : RunPolicy) (outcomes : ℕ → Bool) (fuel : ℕ),
      (run_trace cfg true outcomes fuel cenv).2 =
        (cleanup (run_loop cfg outcomes fuel 0 0).2 cenv).1 := by
  constructor
  · unfold cleanup
    simp [h1, h2, h3, h4, h5]
  · intro cfg outcomes fuel
    unfold run_trace
    simp

/-- Witness for the amended C9 with one processed card and no raising
step. -/
theorem cleanup_sequence_amended_witness :
    cleanup 1 ⟨false, false, false, false⟩ =
      ([CleanupStep.stats, CleanupStep.cameraClose,
        CleanupStep.robotDisconnect, CleanupStep.dbClose], false) ∧
    ∀ (cfg : RunPolicy) (outcomes : ℕ → Bool) (fuel : ℕ),
      (run_trace cfg true outcomes fuel ⟨false, false, false, false⟩).2 =
        (cleanup (run_loop cfg outcomes fuel 0 0).2
          ⟨false, false, false, false⟩).1 :=
  cleanup_sequence_amended 1 ⟨false, false, false, false⟩ rfl rfl rfl rfl
    (by decide)

end CardSorting
